import Mathlib

/-!
Verification development for the reaper-mcp-server core: the hierarchical
RPP project parser (`rpp_parser.py`) and the audio analysis engine
(`audio_analyzer.py`), shallowly embedded in Lean.  Python floats appearing
in the parser are modelled as rationals; audio-signal arithmetic is
modelled over the reals, with dB values in `WithBot ℝ` so that the float
value `-inf` has a faithful counterpart.
-/

deriving instance DecidableEq for Except

namespace Reaper

/-! ## String utilities modelling the Python primitives.
All of them work on `List Char` with structural recursion, so concrete
instances reduce inside the kernel. -/

/-- The double-quote character (written via its code point). -/
def quoteChar : Char := Char.ofNat 34

/-- Models Python `str.strip()`: drop whitespace from both ends. -/
def pyStrip (s : String) : String :=
  ⟨(((s.toList.dropWhile Char.isWhitespace).reverse.dropWhile Char.isWhitespace).reverse)⟩

/-- Models Python `str.startswith(pre)`. -/
def pyStartsWith (s pre : String) : Bool :=
  pre.toList.isPrefixOf s.toList

/-- Split a character list at every character satisfying `p`, keeping empty
segments, as Python `str.split(sep)` does for a one-character separator. -/
def splitPred (p : Char → Bool) : List Char → List (List Char)
  | [] => [[]]
  | c :: cs =>
    let r := splitPred p cs
    if p c then [] :: r
    else
      match r with
      | h :: t => (c :: h) :: t
      | [] => [[c]]

/-- Models Python `line.split(sep)` for a single-character separator. -/
def pySplitChar (c : Char) (s : String) : List String :=
  (splitPred (fun x => x == c) s.toList).map (fun l => ⟨l⟩)

/-- Models Python `str.split()` with no argument: split on whitespace runs,
discarding empty tokens. -/
def splitWs (s : String) : List String :=
  ((splitPred Char.isWhitespace s.toList).filter (fun l => !l.isEmpty)).map (fun l => ⟨l⟩)

/-- Models Python `str.split(' ', 1)`: split at the first space only. -/
def pySplitOnce (s : String) : List String :=
  match s.toList.findIdx? (fun c => c == ' ') with
  | none => [s]
  | some i => [⟨s.toList.take i⟩, ⟨s.toList.drop (i + 1)⟩]

/-- Models Python `c in s` for a single character. -/
def pyContainsChar (s : String) (c : Char) : Bool :=
  s.toList.contains c

/-- Models Python `str.isalnum()` (ASCII subset): nonempty and every
character alphanumeric. -/
def pyIsAlnum (s : String) : Bool :=
  !s.toList.isEmpty && s.toList.all Char.isAlphanum

/-- Models Python `''.join(parts)`. -/
def joinStrings (parts : List String) : String :=
  parts.foldl (fun a b => a ++ b) ""

/-- Decimal digits of a natural number (most significant first), with fuel. -/
def natDigitsAux : ℕ → ℕ → List ℕ
  | 0, _ => []
  | _ + 1, 0 => []
  | fuel + 1, n => natDigitsAux fuel (n / 10) ++ [n % 10]

/-- Decimal rendering of a natural number, modelling Python `str(n)`. -/
def natToStr (n : ℕ) : String :=
  if n = 0 then "0"
  else ⟨(natDigitsAux n n).map (fun d => Char.ofNat (48 + d))⟩

/-- Sign prefix of a Python numeric literal: returns (isNegative, rest). -/
def splitSign : List Char → (Bool × List Char)
  | '-' :: r => (true, r)
  | '+' :: r => (false, r)
  | r => (false, r)

/-- Value of a nonempty all-digit character list. -/
def digitsVal? (cs : List Char) : Option ℕ :=
  if cs.isEmpty then none
  else if cs.all Char.isDigit then
    some (cs.foldl (fun a c => a * 10 + (c.toNat - 48)) 0)
  else none

/-- Models Python `float(s)` on plain decimal literals (optional sign, digits
with an optional fractional part, e.g. "1", "-1.5", "1.", ".5").  Exponent
notation and inf/nan spellings lie outside the modelled subset; the result
is the exact rational value.  `none` models `ValueError`. -/
def parseFloat (s : String) : Option ℚ :=
  let (neg, body) := splitSign s.toList
  let signed : ℚ → ℚ := fun v => if neg then -v else v
  match body.findIdx? (fun c => c == '.') with
  | none => (digitsVal? body).map (fun n => signed n)
  | some i =>
    let ip := body.take i
    let fp := body.drop (i + 1)
    if fp.contains '.' then none
    else if ip.isEmpty && fp.isEmpty then none
    else if ip.all Char.isDigit && fp.all Char.isDigit then
      let ipv := ip.foldl (fun a c => a * 10 + (c.toNat - 48)) 0
      let fpv := fp.foldl (fun a c => a * 10 + (c.toNat - 48)) 0
      some (signed (mkRat ((ipv * 10 ^ fp.length + fpv : ℕ) : ℤ) (10 ^ fp.length)))
    else none

/-- Models Python `int(s)` on optionally signed decimal digit strings.
`none` models `ValueError`. -/
def parseInt (s : String) : Option ℤ :=
  let (neg, body) := splitSign s.toList
  (digitsVal? body).map (fun n => if neg then -(n : ℤ) else (n : ℤ))

/-! ### Path helpers modelling `os.path` on POSIX paths.
`os.path.abspath`'s normalisation of "." and ".." segments is modelled; its
prefixing of the process working directory is not (the project file path is
assumed absolute, which the repository's callers guarantee). -/

/-- Models `os.path.isabs`. -/
def isAbsPath (p : String) : Bool :=
  pyStartsWith p "/"

/-- Models `os.path.dirname`: everything before the last slash, "" if none. -/
def dirName (p : String) : String :=
  match p.toList.reverse.findIdx? (fun c => c == '/') with
  | none => ""
  | some i => ⟨p.toList.take (p.toList.length - 1 - i)⟩

/-- Models `os.path.join b p` for a non-absolute `p`. -/
def joinPath (b p : String) : String :=
  if b = "" then p
  else if b.toList.getLast? = some '/' then b ++ p
  else b ++ "/" ++ p

/-- Normalise "." and ".." segments of an absolute path, modelling the
normalisation performed by `os.path.abspath`. -/
def normAbsPath (s : String) : String :=
  let comps := (pySplitChar '/' s).foldl
    (fun acc c =>
      if c = "" || c = "." then acc
      else if c = ".." then acc.dropLast
      else acc ++ [c]) []
  "/" ++ String.intercalate "/" comps

/-- Models `file_path.split('/')[-1].rsplit('.', 1)[0]` from `RPPParser.__init__`:
the file name without its last extension. -/
def fileStem (path : String) : String :=
  let base := (pySplitChar '/' path).getLastD ""
  match base.toList.reverse.findIdx? (fun c => c == '.') with
  | none => base
  | some i => ⟨base.toList.take (base.toList.length - 1 - i)⟩

/-! ## Parser data model (`reaper_dataclasses.py`), parser-relevant part.
Python floats are modelled as rationals. -/

/-- Dataclass `FX`. -/
structure FX where
  name : String
  encoded_param : String
  bypassed : Bool
deriving DecidableEq, Repr

/-- Dataclass `AudioItem` (the parser never sets `audio_analysis`, which
stays `None`; that field is omitted here). -/
structure AudioItem where
  position : ℚ
  length : ℚ
  audio_filepath : String
deriving DecidableEq, Repr

/-- Dataclass `Track`.  The `automation` and `send_levels` payload types are
modelled as string lists: the parser only ever stores empty values there. -/
structure Track where
  name : String
  volume : ℚ
  pan : ℚ
  mute : Bool
  solo : Bool
  type : String
  input_source : String
  audio_filepath : String
  fx_chain : List FX
  automation : List String
  peak_level : ℚ
  send_levels : List String
  items : List AudioItem
deriving DecidableEq, Repr

/-- Dataclass `Project`. -/
structure Project where
  name : String
  location : String
  tempo : ℚ
  time_signature : String
  total_length : ℚ
  tracks : List Track
deriving DecidableEq, Repr

/-- The mutable dict built by `_create_empty_track`, before it is converted
by `_create_track_from_dict`. -/
structure TrackDict where
  name : String
  volume : ℚ
  pan : ℚ
  mute : Bool
  solo : Bool
  type : String
  input_source : String
  audio_filepath : String
  fx_chain : List FX
  automation : List String
  peak_level : ℚ
  send_levels : List String
  items : List AudioItem
deriving DecidableEq, Repr

/-- The dict built by `_parse_vst_line` for an open effect entry. -/
structure FXDict where
  name : String
  encoded_data : List String
  bypassed : Bool
deriving DecidableEq, Repr

/-- The dict built at `<ITEM` for an open media item. -/
structure ItemDict where
  position : ℚ
  length : ℚ
  audio_filepath : String
deriving DecidableEq, Repr

/-- Python exception kinds the parser can raise: `ValueError` from
`float()`/`int()` on a malformed numeric token, `IndexError` from an
out-of-range list subscript. -/
inductive PErr where
  | valueError (token : String)
  | indexError
deriving DecidableEq, Repr

/-- Parser state of `RPPParser.parse_file`.  In the source,
`current_track` always aliases the top of `track_stack` (it is assigned
exactly when a track is pushed, and reassigned to the new top on pop), so
it is represented here by the head of `track_stack` (head = top). -/
structure PState where
  file_path : String
  project : Project
  track_stack : List TrackDict
  current_fx_chain : List FX
  in_fx_chain : Bool
  current_fx : Option FXDict
  in_item_block : Bool
  in_source_block : Bool
  current_item : Option ItemDict
deriving DecidableEq, Repr

/-- Result of processing one line: either the next state, or a raised
exception paired with the state at the moment of the raise (mutations of
`self.project` performed before the raise persist, as they do in Python). -/
abbrev LineResult := Except (PErr × PState) PState

/-- State carried by a line result (the post-state on success, the state at
the raise on failure). -/
def stateOf : LineResult → PState
  | .ok st => st
  | .error (_, st) => st

/-! ## Parser functions (`rpp_parser.py`). -/

/-- Embeds `RPPParser._create_empty_track`. -/
def create_empty_track : TrackDict :=
  { name := "", volume := 1, pan := 0, mute := false, solo := false,
    type := "audio", input_source := "", audio_filepath := "",
    fx_chain := [], automation := [], peak_level := 0, send_levels := [],
    items := [] }

/-- Embeds `RPPParser._parse_tempo`, including its raising behaviour: with
at least three tokens it assigns `project.tempo` from the second token
(raising `ValueError` first if that token is not numeric), then builds the
time signature from the third and fourth tokens — reading the fourth token
raises `IndexError` when only three tokens exist, after the tempo
assignment has already happened. -/
def parse_tempo (line : String) (st : PState) : LineResult :=
  let parts := splitWs line
  if 3 ≤ parts.length then
    match parseFloat (parts.getD 1 "") with
    | none => .error (.valueError (parts.getD 1 ""), st)
    | some v =>
      let st' : PState := { st with project := { st.project with tempo := v } }
      match parts.get? 3 with
      | some d =>
        .ok { st' with project :=
          { st'.project with time_signature := parts.getD 2 "" ++ "/" ++ d } }
      | none => .error (.indexError, st')
  else .ok st

/-- Embeds `RPPParser._parse_name`: prefer the first double-quoted segment;
otherwise the remainder after the first space (`IndexError` if there is no
space). -/
def parse_name (line : String) : Except PErr String :=
  if pyContainsChar line quoteChar then
    match (pySplitChar quoteChar line).get? 1 with
    | some s => .ok s
    | none => .error .indexError
  else
    match pySplitOnce line with
    | [_, rest] => .ok rest
    | _ => .error .indexError

/-- Embeds `RPPParser._parse_vst_line`: effect display name from the first
quoted segment, "Unknown" when the line has no quoted segment. -/
def parse_vst_line (line : String) : FXDict :=
  { name := (pySplitChar quoteChar line).getD 1 "Unknown",
    encoded_data := [], bypassed := false }

/-- Embeds `RPPParser._parse_bypass`: `bool(int(parts[1]))`. -/
def parse_bypass (line : String) : Except PErr Bool :=
  match (splitWs line).get? 1 with
  | none => .error .indexError
  | some t =>
    match parseInt t with
    | none => .error (.valueError t)
    | some n => .ok (decide (n ≠ 0))

/-- Embeds `RPPParser._parse_volpan`. -/
def parse_volpan (line : String) : Except PErr (ℚ × ℚ) :=
  let parts := splitWs line
  if 3 ≤ parts.length then
    match parseFloat (parts.getD 1 "") with
    | none => .error (.valueError (parts.getD 1 ""))
    | some v =>
      match parseFloat (parts.getD 2 "") with
      | none => .error (.valueError (parts.getD 2 ""))
      | some p => .ok (v, p)
  else .ok (1, 0)

/-- Embeds `RPPParser._parse_mutesolo`. -/
def parse_mutesolo (line : String) : Except PErr (Bool × Bool) :=
  let parts := splitWs line
  if 3 ≤ parts.length then
    match parseInt (parts.getD 1 "") with
    | none => .error (.valueError (parts.getD 1 ""))
    | some m =>
      match parseInt (parts.getD 2 "") with
      | none => .error (.valueError (parts.getD 2 ""))
      | some s => .ok (decide (m ≠ 0), decide (s ≠ 0))
  else .ok (false, false)

/-- Embeds `RPPParser._create_fx`, with `MAX_ENCODED_DATA_LENGTH = 1024`:
the accumulated encoded-data lines are concatenated; a concatenation longer
than 1024 characters is replaced by the truncation marker carrying the
original length. -/
def create_fx (d : FXDict) : FX :=
  let encoded := joinStrings d.encoded_data
  let encoded :=
    if 1024 < encoded.length then
      "<DATA_TRUNCATED: Original size " ++ natToStr encoded.length ++ " bytes>"
    else encoded
  { name := d.name, encoded_param := encoded, bypassed := d.bypassed }

/-- Embeds `RPPParser._parse_position`. -/
def parse_position (line : String) : Except PErr ℚ :=
  match (splitWs line).get? 1 with
  | none => .ok 0
  | some t =>
    match parseFloat t with
    | none => .error (.valueError t)
    | some v => .ok v

/-- Embeds `RPPParser._parse_length`. -/
def parse_length (line : String) : Except PErr ℚ :=
  match (splitWs line).get? 1 with
  | none => .ok 0
  | some t =>
    match parseFloat t with
    | none => .error (.valueError t)
    | some v => .ok v

/-- Embeds `RPPParser._parse_file_path`: quoted path preferred, else second
token (empty if absent); non-absolute nonempty paths are resolved against
the project file's directory. -/
def parse_file_path (base line : String) : String :=
  let path :=
    if pyContainsChar line quoteChar then (pySplitChar quoteChar line).getD 1 ""
    else (splitWs line).getD 1 ""
  if path ≠ "" && !isAbsPath path then normAbsPath (joinPath (dirName base) path)
  else path

/-- Embeds `RPPParser._create_audio_item`. -/
def create_audio_item (d : ItemDict) : AudioItem :=
  { position := d.position, length := d.length, audio_filepath := d.audio_filepath }

/-- Embeds `RPPParser._create_track_from_dict`. -/
def create_track_from_dict (d : TrackDict) : Track :=
  { name := d.name, volume := d.volume, pan := d.pan, mute := d.mute,
    solo := d.solo, type := d.type, input_source := d.input_source,
    audio_filepath := d.audio_filepath, fx_chain := d.fx_chain,
    automation := d.automation, peak_level := d.peak_level,
    send_levels := d.send_levels, items := d.items }

/-- Dispatch for one already-stripped line, embedding the `elif` chain of
`RPPParser.parse_file` in source order.  Python truthiness of
`current_track` (a never-empty dict, or `None`) is `track_stack ≠ []`
through the head-aliasing invariant noted on `PState`. -/
def processTrimmed (st : PState) (line : String) : LineResult :=
  if line = "" then .ok st
  else if pyStartsWith line "TEMPO" then parse_tempo line st
  else if pyStartsWith line "<TRACK" then
    .ok { st with track_stack := create_empty_track :: st.track_stack }
  else if pyStartsWith line "NAME" && !st.track_stack.isEmpty then
    match parse_name line with
    | .ok nm =>
      .ok { st with track_stack :=
        st.track_stack.modifyHead (fun t => { t with name := nm }) }
    | .error e => .error (e, st)
  else if pyStartsWith line "<FXCHAIN" then
    .ok { st with in_fx_chain := true, current_fx_chain := [] }
  else if pyStartsWith line "<VST" && st.in_fx_chain then
    .ok { st with
      current_fx_chain :=
        match st.current_fx with
        | some fx => st.current_fx_chain ++ [create_fx fx]
        | none => st.current_fx_chain,
      current_fx := some (parse_vst_line line) }
  else if pyStartsWith line "BYPASS" && st.current_fx.isSome then
    match parse_bypass line with
    | .ok b =>
      .ok { st with current_fx := st.current_fx.map (fun fx => { fx with bypassed := b }) }
    | .error e => .error (e, st)
  else if st.in_fx_chain && st.current_fx.isSome && pyIsAlnum line then
    .ok { st with current_fx :=
      st.current_fx.map (fun fx => { fx with encoded_data := fx.encoded_data ++ [line] }) }
  else if line = ">" && st.in_fx_chain then
    match st.current_fx with
    | some fx =>
      .ok { st with current_fx_chain := st.current_fx_chain ++ [create_fx fx],
                    current_fx := none }
    | none =>
      .ok { st with in_fx_chain := false,
                    track_stack :=
                      st.track_stack.modifyHead (fun t => { t with fx_chain := st.current_fx_chain }),
                    current_fx_chain := [] }
  else if pyStartsWith line "VOLPAN" && !st.track_stack.isEmpty then
    match parse_volpan line with
    | .ok vp =>
      .ok { st with track_stack :=
        st.track_stack.modifyHead (fun t => { t with volume := vp.1, pan := vp.2 }) }
    | .error e => .error (e, st)
  else if pyStartsWith line "MUTESOLO" && !st.track_stack.isEmpty then
    match parse_mutesolo line with
    | .ok ms =>
      .ok { st with track_stack :=
        st.track_stack.modifyHead (fun t => { t with mute := ms.1, solo := ms.2 }) }
    | .error e => .error (e, st)
  else if pyStartsWith line "<ITEM" && !st.track_stack.isEmpty then
    .ok { st with in_item_block := true,
                  current_item := some { position := 0, length := 0, audio_filepath := "" } }
  else if pyStartsWith line "POSITION" && (st.in_item_block && st.current_item.isSome) then
    match parse_position line with
    | .ok v =>
      .ok { st with current_item := st.current_item.map (fun it => { it with position := v }) }
    | .error e => .error (e, st)
  else if pyStartsWith line "LENGTH" && (st.in_item_block && st.current_item.isSome) then
    match parse_length line with
    | .ok v =>
      .ok { st with current_item := st.current_item.map (fun it => { it with length := v }) }
    | .error e => .error (e, st)
  else if pyStartsWith line "<SOURCE WAVE" && st.in_item_block then
    .ok { st with in_source_block := true }
  else if pyStartsWith line "FILE" && (st.in_source_block && st.current_item.isSome) then
    .ok { st with current_item :=
      st.current_item.map (fun it => { it with audio_filepath := parse_file_path st.file_path line }) }
  else if line = ">" && st.in_item_block then
    if st.in_source_block then .ok { st with in_source_block := false }
    else
      match st.current_item with
      | some it =>
        .ok { st with
          track_stack :=
            st.track_stack.modifyHead (fun t => { t with items := t.items ++ [create_audio_item it] }),
          current_item := none,
          in_item_block := false }
      | none => .ok st
  else if line = ">" && !st.track_stack.isEmpty then
    match st.track_stack with
    | t :: rest =>
      .ok { st with track_stack := rest,
                    project :=
                      { st.project with tracks := st.project.tracks ++ [create_track_from_dict t] } }
    | [] => .ok st
  else .ok st

/-- Processing of one raw line: strip it, then dispatch (empty lines are
skipped). -/
def processLine (st : PState) (raw : String) : LineResult :=
  processTrimmed st (pyStrip raw)

/-- Fold of `processLine` over the document's lines; a raised exception
aborts the remainder of the parse. -/
def parseLines (st : PState) : List String → LineResult
  | [] => .ok st
  | l :: ls =>
    match processLine st l with
    | .ok st' => parseLines st' ls
    | .error e => .error e

/-- Initial parser state built by `RPPParser.__init__`. -/
def initState (path : String) : PState :=
  { file_path := path,
    project := { name := fileStem path, location := path, tempo := 0,
                 time_signature := "", total_length := 0, tracks := [] },
    track_stack := [], current_fx_chain := [], in_fx_chain := false,
    current_fx := none, in_item_block := false, in_source_block := false,
    current_item := none }

/-- Whole-file parse, embedding `RPPParser.__init__` + `parse_file` over the
already-read list of lines. -/
def parseRPP (path : String) (lines : List String) : LineResult :=
  parseLines (initState path) lines

/-! ## Audio analysis engine (`audio_analyzer.py`).
Sample values and metrics are modelled over ℝ; dB values live in
`WithBot ℝ`, whose bottom models the float `-inf`. -/

/-- Type of dB-valued fields (float values that may be `-inf`). -/
abbrev DB := WithBot ℝ

/-- Decoded sample matrix as returned by `soundfile.read(..., always_2d=True)`:
a list of frames, each frame holding one sample per channel. -/
structure SampleMatrix where
  rows : List (List ℝ)
  nchannels : ℕ
  wf : ∀ r ∈ rows, r.length = nchannels

/-- Arithmetic mean of a list (`np.mean`); 0/0 junk on the empty list. -/
noncomputable def listMean (l : List ℝ) : ℝ := l.sum / l.length

/-- Column `j` of the sample matrix (`data[:, j]`). -/
def colAt (M : SampleMatrix) (j : ℕ) : List ℝ :=
  M.rows.map (fun r => r.getD j 0)

/-- The mono conversion used by level/frequency/dynamics analysis: per-frame
channel mean when more than one channel, else column 0. -/
noncomputable def monoOf (M : SampleMatrix) : List ℝ :=
  if 1 < M.nchannels then M.rows.map listMean else colAt M 0

/-- Embeds `np.max(np.abs(mono))` (on nonempty input; `np.max` has no empty
case in reachable calls, 0 is the nominal value here). -/
noncomputable def peakLinear (l : List ℝ) : ℝ :=
  (l.map (fun x => |x|)).foldr max 0

/-- Embeds `np.sqrt(np.mean(mono ** 2))`. -/
noncomputable def rmsLinear (l : List ℝ) : ℝ :=
  Real.sqrt (listMean (l.map (fun x => x ^ 2)))

/-- Embeds `AudioAnalyzer._linear_to_db`: `-inf` for non-positive input,
else `20 * log10 x`. -/
noncomputable def linear_to_db (x : ℝ) : DB :=
  if x ≤ 0 then ⊥ else ((20 * Real.logb 10 x : ℝ) : DB)

/-- Embeds `np.sum(np.abs(mono) >= 0.9999)`: the number of samples whose
absolute value is at least the clipping threshold. -/
noncomputable def countClipped (l : List ℝ) : ℕ :=
  l.foldr (fun x n => (if (0.9999 : ℝ) ≤ |x| then 1 else 0) + n) 0

/-- Dataclass `LevelAnalysis`. -/
structure LevelAnalysis where
  peak_db : DB
  rms_db : DB
  clipping_detected : Bool
  clipped_samples_count : ℕ

/-- Dataclass `FrequencyAnalysis`. -/
structure FrequencyAnalysis where
  spectral_centroid_hz : ℝ
  low_freq_energy_db : DB
  mid_freq_energy_db : DB
  high_freq_energy_db : DB

/-- Dataclass `StereoAnalysis`. -/
structure StereoAnalysis where
  is_stereo : Bool
  stereo_width : ℝ
  phase_coherence : ℝ
  mono_compatible : Bool

/-- Dataclass `DynamicsAnalysis`. -/
structure DynamicsAnalysis where
  lufs_integrated : ℝ
  true_peak_db : DB
  crest_factor_db : DB

/-- Dataclass `AudioAnalysisResult`. -/
structure AudioAnalysisResult where
  file_path : String
  sample_rate : ℕ
  duration_seconds : ℝ
  channels : ℕ
  level : LevelAnalysis
  frequency : FrequencyAnalysis
  stereo : StereoAnalysis
  dynamics : DynamicsAnalysis
  warnings : List String
  error : Option String

/-- Embeds `AudioAnalyzer._analyze_levels`. -/
noncomputable def analyze_levels (M : SampleMatrix) : LevelAnalysis :=
  let mono := monoOf M
  let peak := peakLinear mono
  let rms := rmsLinear mono
  let clipped := countClipped mono
  { peak_db := if 0 < peak then linear_to_db peak else ⊥,
    rms_db := if 0 < rms then linear_to_db rms else ⊥,
    clipping_detected := decide (0 < clipped),
    clipped_samples_count := clipped }

/-- Magnitude of bin `k` of the real-input discrete Fourier transform of
the signal, modelling `np.abs(np.fft.rfft(mono))[k]`. -/
noncomputable def dftMag (l : List ℝ) (k : ℕ) : ℝ :=
  Complex.abs (∑ n ∈ Finset.range l.length,
    ((l.getD n 0 : ℝ) : ℂ) *
      Complex.exp (-(2 * Real.pi * Complex.I * k * n) / l.length))

/-- Embeds `AudioAnalyzer._analyze_frequency`.  The spectral rolloff is
computed in the source but dropped (the dataclass has no field for it), so
it is not modelled. -/
noncomputable def analyze_frequency (M : SampleMatrix) (sr : ℕ) : FrequencyAnalysis :=
  let mono := monoOf M
  let n := mono.length
  let bins := List.range (n / 2 + 1)
  let mags := bins.map (fun k => max (dftMag mono k) 1e-10)
  let freqs := bins.map (fun k => (k : ℝ) * sr / n)
  let fm := freqs.zip mags
  let centroid := (fm.map (fun p => p.1 * p.2)).sum / mags.sum
  let bandE : ℝ → ℝ → DB := fun lo hi =>
    let band := (fm.filter (fun p => decide (lo ≤ p.1 ∧ p.1 ≤ hi))).map (fun p => p.2 ^ 2)
    if band.isEmpty then ⊥
    else if 0 < listMean band then linear_to_db (listMean band) else ⊥
  { spectral_centroid_hz := centroid,
    low_freq_energy_db := bandE 20 200,
    mid_freq_energy_db := bandE 200 2000,
    high_freq_energy_db := bandE 2000 20000 }

/-- Pearson correlation coefficient of two equal-length sequences, the
documented semantics of `np.corrcoef(l, r)[0, 1]`.  In this real-valued
model a degenerate (constant) channel yields 0 via division by zero, where
numpy produces nan; no claim depends on that corner. -/
noncomputable def pearsonCorr (l r : List ℝ) : ℝ :=
  let lm := listMean l
  let rm := listMean r
  let cov := ((l.zip r).map (fun p => (p.1 - lm) * (p.2 - rm))).sum
  cov / (Real.sqrt ((l.map (fun x => (x - lm) ^ 2)).sum) *
         Real.sqrt ((r.map (fun x => (x - rm) ^ 2)).sum))

/-- Embeds `AudioAnalyzer._analyze_stereo`. -/
noncomputable def analyze_stereo (M : SampleMatrix) : StereoAnalysis :=
  if M.nchannels = 2 then
    let left := colAt M 0
    let right := colAt M 1
    let coh := if 0 < left.length ∧ 0 < right.length then pearsonCorr left right else 1
    { is_stereo := true,
      stereo_width := 1 - |coh|,
      phase_coherence := coh,
      mono_compatible := decide ((0.5 : ℝ) < coh) }
  else
    { is_stereo := false, stereo_width := 0, phase_coherence := 1, mono_compatible := true }

/-- The optional loudness-metering collaborator
(`pyln.Meter(sr).integrated_loudness(data)`): `none` models the dependency
being unavailable (`HAS_PYLOUDNORM = False`); an `Except.error` models the
computation raising. -/
abbrev LoudnessMeter := ℕ → SampleMatrix → Except String ℝ

/-- Embeds `AudioAnalyzer._analyze_dynamics`: integrated loudness from the
meter over the full matrix when the dependency is present, the signal is
nonempty and the meter does not raise; the fixed constant -23.0 otherwise.
True peak and crest factor are computed from the mono mix. -/
noncomputable def analyze_dynamics (meter : Option LoudnessMeter)
    (M : SampleMatrix) (sr : ℕ) : DynamicsAnalysis :=
  let mono := monoOf M
  let lufs : ℝ :=
    match meter with
    | some m =>
      if 0 < mono.length then
        match m sr M with
        | .ok v => v
        | .error _ => -23.0
      else -23.0
    | none => -23.0
  let peak := peakLinear mono
  let rms := rmsLinear mono
  { lufs_integrated := lufs,
    true_peak_db := if 0 < peak then linear_to_db peak else ⊥,
    crest_factor_db := if 0 < rms then linear_to_db (peak / rms) else ((0 : ℝ) : DB) }

/-- Fixed-point decimal rendering of a real number with `d` fractional
digits, modelling Python's "%.df" formatting of a finite float (the
half-even versus half-up rounding difference at exact midpoints is below
the resolution of this model). -/
noncomputable def fmtR (d : ℕ) (v : ℝ) : String :=
  let scaled : ℤ := round (v * (10 : ℝ) ^ d)
  let mag := scaled.natAbs
  let fpStr := natToStr (mag % 10 ^ d)
  let pad : String := ⟨List.replicate (d - fpStr.length) '0'⟩
  (if scaled < 0 then "-" else "") ++ natToStr (mag / 10 ^ d) ++
    (if d = 0 then "" else "." ++ pad ++ fpStr)

/-- Rendering of a possibly `-inf` dB value, as Python "%.df" renders it. -/
noncomputable def fmtDb (d : ℕ) (x : DB) : String :=
  if x = ⊥ then "-inf" else fmtR d (x.unbot' 0)

/-- Warning text of rule 1 (hot peak level). -/
noncomputable def warnHot (l : LevelAnalysis) : String :=
  "Peak level very hot: " ++ fmtDb 1 l.peak_db ++ " dBFS (risk of clipping)"

/-- Warning text of rule 2 (clipping). -/
def warnClip (l : LevelAnalysis) : String :=
  "Clipping detected: " ++ natToStr l.clipped_samples_count ++ " clipped samples"

/-- Warning text of rule 3 (excessive low band). -/
noncomputable def warnMuddy (f : FrequencyAnalysis) : String :=
  "Excessive low frequency energy: " ++ fmtDb 1 f.low_freq_energy_db ++ " dB (muddy mix)"

/-- Warning text of rule 4 (low spectral centroid). -/
noncomputable def warnDark (f : FrequencyAnalysis) : String :=
  "Spectral centroid very low: " ++ fmtR 0 f.spectral_centroid_hz ++ " Hz (dark mix)"

/-- Warning text of rule 5 (phase issues). -/
noncomputable def warnPhase (s : StereoAnalysis) : String :=
  "Phase issues detected (coherence: " ++ fmtR 2 s.phase_coherence ++ ") - may cancel in mono"

/-- Warning text of rule 6 (narrow stereo image). -/
noncomputable def warnNarrow (s : StereoAnalysis) : String :=
  "Narrow stereo image (width: " ++ fmtR 2 s.stereo_width ++ ") - mostly mono"

/-- Warning text of rule 7 (too loud for streaming). -/
noncomputable def warnLoud (d : DynamicsAnalysis) : String :=
  "Very loud for streaming: " ++ fmtR 1 d.lufs_integrated ++ " LUFS (target: -14 LUFS for Spotify)"

/-- Warning text of rule 8 (low crest factor). -/
noncomputable def warnCrest (d : DynamicsAnalysis) : String :=
  "Low crest factor: " ++ fmtDb 1 d.crest_factor_db ++ " dB (possibly over-compressed)"

/-- Embeds `AudioAnalyzer._generate_warnings`: the sequential conditional
appends of the eight rules, in source order. -/
noncomputable def generate_warnings (level : LevelAnalysis) (freq : FrequencyAnalysis)
    (stereo : StereoAnalysis) (dyn : DynamicsAnalysis) : List String :=
  (if (((-0.3 : ℝ) : DB) < level.peak_db) then [warnHot level] else []) ++
  (if level.clipping_detected = true then [warnClip level] else []) ++
  (if (((-6.0 : ℝ) : DB) < freq.low_freq_energy_db) then [warnMuddy freq] else []) ++
  (if freq.spectral_centroid_hz < 500 then [warnDark freq] else []) ++
  (if stereo.is_stereo = true ∧ ¬stereo.mono_compatible = true then [warnPhase stereo] else []) ++
  (if stereo.is_stereo = true ∧ stereo.stereo_width < 0.1 then [warnNarrow stereo] else []) ++
  (if (-8.0 : ℝ) < dyn.lufs_integrated then [warnLoud dyn] else []) ++
  (if dyn.crest_factor_db < ((6.0 : ℝ) : DB) then [warnCrest dyn] else [])

open Classical in
/-- Evaluation of an ordered rule list: keep, in order, the warning of each
rule whose condition holds. -/
noncomputable def rulesToWarnings : List (Prop × String) → List String
  | [] => []
  | r :: rs => (if r.1 then [r.2] else []) ++ rulesToWarnings rs

/-- The eight warning rules, in the fixed order of the warning synthesizer,
with the conditions the code tests (rule 2 tests the `clipping_detected`
flag). -/
noncomputable def warnRules (level : LevelAnalysis) (freq : FrequencyAnalysis)
    (stereo : StereoAnalysis) (dyn : DynamicsAnalysis) : List (Prop × String) :=
  [((((-0.3 : ℝ) : DB) < level.peak_db), warnHot level),
   ((level.clipping_detected = true), warnClip level),
   ((((-6.0 : ℝ) : DB) < freq.low_freq_energy_db), warnMuddy freq),
   ((freq.spectral_centroid_hz < 500), warnDark freq),
   ((stereo.is_stereo = true ∧ ¬stereo.mono_compatible = true), warnPhase stereo),
   ((stereo.is_stereo = true ∧ stereo.stereo_width < 0.1), warnNarrow stereo),
   (((-8.0 : ℝ) < dyn.lufs_integrated), warnLoud dyn),
   ((dyn.crest_factor_db < ((6.0 : ℝ) : DB)), warnCrest dyn)]

/-- The eight warning rules exactly as claim C3 words them: identical to
`warnRules` except that rule 2's condition is `clipped_samples_count > 0`
rather than the `clipping_detected` flag. -/
noncomputable def claimWarnRules (level : LevelAnalysis) (freq : FrequencyAnalysis)
    (stereo : StereoAnalysis) (dyn : DynamicsAnalysis) : List (Prop × String) :=
  [((((-0.3 : ℝ) : DB) < level.peak_db), warnHot level),
   ((0 < level.clipped_samples_count), warnClip level),
   ((((-6.0 : ℝ) : DB) < freq.low_freq_energy_db), warnMuddy freq),
   ((freq.spectral_centroid_hz < 500), warnDark freq),
   ((stereo.is_stereo = true ∧ ¬stereo.mono_compatible = true), warnPhase stereo),
   ((stereo.is_stereo = true ∧ stereo.stereo_width < 0.1), warnNarrow stereo),
   (((-8.0 : ℝ) < dyn.lufs_integrated), warnLoud dyn),
   ((dyn.crest_factor_db < ((6.0 : ℝ) : DB)), warnCrest dyn)]

/-- Outcome of the filesystem check and the decoding collaborator inside
`AudioAnalyzer.analyze`'s try block: the path does not exist; `sf.read`
raises `LibsndfileError`; some other exception is raised (by `sf.read` or
during metric computation — the metric functions of this embedding are
total, so that case is carried by the outcome); or a decoded matrix and
sample rate are produced. -/
inductive DecodeOutcome where
  | absent
  | libsndfileError (msg : String)
  | otherExc (msg : String)
  | ok (M : SampleMatrix) (sr : ℕ)

/-- The all-default failure result built by every failure branch of
`AudioAnalyzer.analyze`: zero scalars, zero/default sub-results, empty
warnings, and the given error message. -/
def zeroResult (path : String) (err : String) : AudioAnalysisResult :=
  { file_path := path, sample_rate := 0, duration_seconds := 0, channels := 0,
    level := { peak_db := ((0 : ℝ) : DB), rms_db := ((0 : ℝ) : DB),
               clipping_detected := false, clipped_samples_count := 0 },
    frequency := { spectral_centroid_hz := 0, low_freq_energy_db := ((0 : ℝ) : DB),
                   mid_freq_energy_db := ((0 : ℝ) : DB), high_freq_energy_db := ((0 : ℝ) : DB) },
    stereo := { is_stereo := false, stereo_width := 0, phase_coherence := 0,
                mono_compatible := false },
    dynamics := { lufs_integrated := 0, true_peak_db := ((0 : ℝ) : DB),
                  crest_factor_db := ((0 : ℝ) : DB) },
    warnings := [], error := some err }

/-- Embeds `AudioAnalyzer.analyze` as a total function of the decode
outcome: each Python failure path returns the corresponding zeroed result,
the success path runs the four analyses and the warning synthesizer. -/
noncomputable def analyze (path : String) (outcome : DecodeOutcome)
    (meter : Option LoudnessMeter) : AudioAnalysisResult :=
  match outcome with
  | .absent => zeroResult path ("File not found: " ++ path)
  | .libsndfileError msg => zeroResult path ("Corrupted or invalid audio file: " ++ msg)
  | .otherExc msg => zeroResult path ("Analysis failed: " ++ msg)
  | .ok M sr =>
    let level := analyze_levels M
    let freq := analyze_frequency M sr
    let stereo := analyze_stereo M
    let dyn := analyze_dynamics meter M sr
    { file_path := path, sample_rate := sr,
      duration_seconds := (M.rows.length : ℝ) / (sr : ℝ),
      channels := M.nchannels,
      level := level, frequency := freq, stereo := stereo, dynamics := dyn,
      warnings := generate_warnings level freq stereo dyn,
      error := none }

/-! ## Helper lemmas about the closing-token dispatch. -/

/-- Residual dispatch of `processTrimmed` on the line ">" once every
directive test has been discharged: exactly the three `>`-branches of the
source, in source order. -/
def closeStep (st : PState) : LineResult :=
  if st.in_fx_chain then
    match st.current_fx with
    | some fx =>
      .ok { st with current_fx_chain := st.current_fx_chain ++ [create_fx fx],
                    current_fx := none }
    | none =>
      .ok { st with in_fx_chain := false,
                    track_stack :=
                      st.track_stack.modifyHead (fun t => { t with fx_chain := st.current_fx_chain }),
                    current_fx_chain := [] }
  else if st.in_item_block then
    if st.in_source_block then .ok { st with in_source_block := false }
    else
      match st.current_item with
      | some it =>
        .ok { st with
          track_stack :=
            st.track_stack.modifyHead (fun t => { t with items := t.items ++ [create_audio_item it] }),
          current_item := none,
          in_item_block := false }
      | none => .ok st
  else if !st.track_stack.isEmpty then
    match st.track_stack with
    | t :: rest =>
      .ok { st with track_stack := rest,
                    project :=
                      { st.project with tracks := st.project.tracks ++ [create_track_from_dict t] } }
    | [] => .ok st
  else .ok st

/-- Discriminator for a completed (non-raising) parse. -/
def isOkResult : LineResult → Bool
  | .ok _ => true
  | .error _ => false

/-! ### Concrete fixtures used by witnesses and counterexamples. -/

/-- State with an open effect entry inside an open effect chain. -/
def fxOpenState : PState :=
  { initState "w.rpp" with
      in_fx_chain := true,
      current_fx := some { name := "X", encoded_data := ["ab"], bypassed := false } }

/-- State with an open effect chain and no open entry. -/
def chainOpenState : PState :=
  { initState "w.rpp" with
      in_fx_chain := true,
      current_fx_chain := [{ name := "X", encoded_param := "ab", bypassed := false }],
      track_stack := [create_empty_track] }

/-- State inside an item's source sub-block. -/
def sourceOpenState : PState :=
  { initState "w.rpp" with
      in_item_block := true,
      in_source_block := true,
      current_item := some { position := 0, length := 0, audio_filepath := "/a.wav" },
      track_stack := [create_empty_track] }

/-- State with an open item and no open source sub-block. -/
def itemOpenState : PState :=
  { initState "w.rpp" with
      in_item_block := true,
      current_item := some { position := 1, length := 2, audio_filepath := "/a.wav" },
      track_stack := [create_empty_track] }

/-- State with only an open track. -/
def trackOpenState : PState :=
  { initState "w.rpp" with track_stack := [create_empty_track] }

/-- A 1025-character encoded-data blob (over the truncation threshold). -/
def bigBlob : String := ⟨List.replicate 1025 'a'⟩

/-- One-channel, one-frame sample matrix. -/
noncomputable def MmonoW : SampleMatrix :=
  { rows := [[1]], nchannels := 1,
    wf := by
      intro r hr
      simp only [List.mem_singleton] at hr
      rw [hr]
      rfl }

/-- Two-channel, two-frame sample matrix. -/
noncomputable def MstereoW : SampleMatrix :=
  { rows := [[1, 0], [1, 1]], nchannels := 2,
    wf := by
      intro r hr
      simp only [List.mem_cons, List.mem_singleton, List.not_mem_nil, or_false] at hr
      rcases hr with rfl | rfl <;> rfl }

/-- A loudness meter that always raises. -/
def failMeter : LoudnessMeter := fun _ _ => .error "boom"

/-- Level sub-result with the clipping flag cleared but a positive clipped
count (unreachable from `analyze_levels` but a legal quadruple input). -/
noncomputable def lvlFlagClear : LevelAnalysis :=
  { peak_db := ⊥, rms_db := ⊥, clipping_detected := false, clipped_samples_count := 1 }

/-- Frequency sub-result triggering no warnings. -/
noncomputable def freqQuiet : FrequencyAnalysis :=
  { spectral_centroid_hz := 1000, low_freq_energy_db := ⊥,
    mid_freq_energy_db := ⊥, high_freq_energy_db := ⊥ }

/-- Stereo sub-result triggering no warnings (mono defaults). -/
noncomputable def stereoDefault : StereoAnalysis :=
  { is_stereo := false, stereo_width := 0, phase_coherence := 1, mono_compatible := true }

/-- Dynamics sub-result triggering no warnings. -/
noncomputable def dynQuiet : DynamicsAnalysis :=
  { lufs_integrated := -23, true_peak_db := ⊥, crest_factor_db := ((7 : ℝ) : DB) }

lemma processTrimmed_gt (st : PState) : processTrimmed st ">" = closeStep st := by
  have e1 : pyStartsWith ">" "TEMPO" = false := by decide
  have e2 : pyStartsWith ">" "<TRACK" = false := by decide
  have e3 : pyStartsWith ">" "NAME" = false := by decide
  have e4 : pyStartsWith ">" "<FXCHAIN" = false := by decide
  have e5 : pyStartsWith ">" "<VST" = false := by decide
  have e6 : pyStartsWith ">" "BYPASS" = false := by decide
  have e7 : pyIsAlnum ">" = false := by decide
  have e8 : pyStartsWith ">" "VOLPAN" = false := by decide
  have e9 : pyStartsWith ">" "MUTESOLO" = false := by decide
  have e10 : pyStartsWith ">" "<ITEM" = false := by decide
  have e11 : pyStartsWith ">" "POSITION" = false := by decide
  have e12 : pyStartsWith ">" "LENGTH" = false := by decide
  have e13 : pyStartsWith ">" "<SOURCE WAVE" = false := by decide
  have e14 : pyStartsWith ">" "FILE" = false := by decide
  simp only [processTrimmed, closeStep, e1, e2, e3, e4, e5, e6, e7, e8, e9, e10, e11, e12,
    e13, e14, Bool.false_and, Bool.and_false, Bool.false_eq_true, if_false]
  norm_num
  exact fun h => absurd h (by decide)

lemma processTrimmed_tempo_eq (st : PState) (line : String)
    (h : pyStartsWith line "TEMPO" = false) :
    (stateOf (processTrimmed st line)).project.tempo = st.project.tempo := by
  unfold processTrimmed
  by_cases h1 : line = ""
  · rw [if_pos h1]; rfl
  rw [if_neg h1]
  by_cases h2 : pyStartsWith line "TEMPO" = true
  · exact absurd h2 (by rw [h]; decide)
  rw [if_neg h2]
  by_cases h3 : pyStartsWith line "<TRACK" = true
  · rw [if_pos h3]; rfl
  rw [if_neg h3]
  by_cases h4 : (pyStartsWith line "NAME" && !st.track_stack.isEmpty) = true
  · rw [if_pos h4]; cases hq : parse_name line <;> rfl
  rw [if_neg h4]
  by_cases h5 : pyStartsWith line "<FXCHAIN" = true
  · rw [if_pos h5]; rfl
  rw [if_neg h5]
  by_cases h6 : (pyStartsWith line "<VST" && st.in_fx_chain) = true
  · rw [if_pos h6]; rfl
  rw [if_neg h6]
  by_cases h7 : (pyStartsWith line "BYPASS" && st.current_fx.isSome) = true
  · rw [if_pos h7]; cases hq : parse_bypass line <;> rfl
  rw [if_neg h7]
  by_cases h8 : (st.in_fx_chain && st.current_fx.isSome && pyIsAlnum line) = true
  · rw [if_pos h8]; rfl
  rw [if_neg h8]
  by_cases h9 : (decide (line = ">") && st.in_fx_chain) = true
  · rw [if_pos h9]; cases hq : st.current_fx <;> rfl
  rw [if_neg h9]
  by_cases h10 : (pyStartsWith line "VOLPAN" && !st.track_stack.isEmpty) = true
  · rw [if_pos h10]; cases hq : parse_volpan line <;> rfl
  rw [if_neg h10]
  by_cases h11 : (pyStartsWith line "MUTESOLO" && !st.track_stack.isEmpty) = true
  · rw [if_pos h11]; cases hq : parse_mutesolo line <;> rfl
  rw [if_neg h11]
  by_cases h12 : (pyStartsWith line "<ITEM" && !st.track_stack.isEmpty) = true
  · rw [if_pos h12]; rfl
  rw [if_neg h12]
  by_cases h13 : (pyStartsWith line "POSITION" && (st.in_item_block && st.current_item.isSome)) = true
  · rw [if_pos h13]; cases hq : parse_position line <;> rfl
  rw [if_neg h13]
  by_cases h14 : (pyStartsWith line "LENGTH" && (st.in_item_block && st.current_item.isSome)) = true
  · rw [if_pos h14]; cases hq : parse_length line <;> rfl
  rw [if_neg h14]
  by_cases h15 : (pyStartsWith line "<SOURCE WAVE" && st.in_item_block) = true
  · rw [if_pos h15]; rfl
  rw [if_neg h15]
  by_cases h16 : (pyStartsWith line "FILE" && (st.in_source_block && st.current_item.isSome)) = true
  · rw [if_pos h16]; rfl
  rw [if_neg h16]
  by_cases h17 : (decide (line = ">") && st.in_item_block) = true
  · rw [if_pos h17]
    by_cases hs : st.in_source_block = true
    · rw [if_pos hs]; rfl
    rw [if_neg hs]; cases hq : st.current_item <;> rfl
  rw [if_neg h17]
  by_cases h18 : (decide (line = ">") && !st.track_stack.isEmpty) = true
  · rw [if_pos h18]; cases hq : st.track_stack <;> rfl
  rw [if_neg h18]; rfl

lemma parseLines_tempo_eq (lines : List String) : ∀ st : PState,
    (∀ l ∈ lines, pyStartsWith (pyStrip l) "TEMPO" = false) →
    (stateOf (parseLines st lines)).project.tempo = st.project.tempo := by
  induction lines with
  | nil => intro st _; rfl
  | cons l ls ih =>
    intro st h
    have hline : (stateOf (processTrimmed st (pyStrip l))).project.tempo = st.project.tempo :=
      processTrimmed_tempo_eq st (pyStrip l) (h l (by simp))
    simp only [parseLines, processLine]
    cases hp : processTrimmed st (pyStrip l) with
    | ok st' =>
      rw [hp] at hline
      exact (ih st' (fun l' hl' => h l' (by simp [hl']))).trans hline
    | error e =>
      rw [hp] at hline
      exact hline

lemma monoOf_eq_downmix (M : SampleMatrix) (hc : 1 ≤ M.nchannels) :
    monoOf M = M.rows.map listMean := by
  unfold monoOf
  by_cases h2 : 1 < M.nchannels
  · rw [if_pos h2]
  · rw [if_neg h2]
    have hone : M.nchannels = 1 := le_antisymm (not_lt.mp h2) hc
    unfold colAt
    refine List.map_congr_left ?_
    intro r hr
    have hlen : r.length = 1 := (M.wf r hr).trans hone
    match r, hlen with
    | [x], _ => simp [listMean]

lemma countClipped_eq_filter (l : List ℝ) :
    countClipped l = (l.filter (fun x => decide ((0.9999 : ℝ) ≤ |x|))).length := by
  induction l with
  | nil => rfl
  | cons x xs ih =>
    have hstep : countClipped (x :: xs) =
        (if (0.9999 : ℝ) ≤ |x| then 1 else 0) + countClipped xs := rfl
    rw [hstep, ih]
    by_cases h : (0.9999 : ℝ) ≤ |x|
    · rw [if_pos h]; simp [List.filter, h]; omega
    · rw [if_neg h]; simp [List.filter, h]

/-! ## Claim theorems. -/

/-- C8: when an effect entry is finalized, a concatenated encoded-data blob
strictly longer than 1024 characters is replaced by the truncation marker
carrying the original length; a blob of at most 1024 characters is stored
unchanged. -/
theorem create_fx_truncation (d : FXDict) :
    (1024 < (joinStrings d.encoded_data).length →
      create_fx d = { name := d.name,
                      encoded_param := "<DATA_TRUNCATED: Original size " ++
                        natToStr (joinStrings d.encoded_data).length ++ " bytes>",
                      bypassed := d.bypassed }) ∧
    ((joinStrings d.encoded_data).length ≤ 1024 →
      create_fx d = { name := d.name, encoded_param := joinStrings d.encoded_data,
                      bypassed := d.bypassed }) := by
  constructor
  · intro h
    simp only [create_fx]
    rw [if_pos h]
  · intro h
    simp only [create_fx]
    rw [if_neg (by omega)]

set_option maxRecDepth 10000 in
theorem create_fx_truncation_witness :
    (1024 < (joinStrings [bigBlob]).length ∧
      create_fx { name := "X", encoded_data := [bigBlob], bypassed := false } =
        { name := "X",
          encoded_param := "<DATA_TRUNCATED: Original size " ++
                             natToStr (joinStrings [bigBlob]).length ++ " bytes>",
          bypassed := false }) ∧
    ((joinStrings ["ab"]).length ≤ 1024 ∧
      create_fx { name := "Y", encoded_data := ["ab"], bypassed := true } =
        { name := "Y", encoded_param := joinStrings ["ab"], bypassed := true }) :=
  ⟨⟨by decide, (create_fx_truncation _).1 (by decide)⟩,
   ⟨by decide, (create_fx_truncation _).2 (by decide)⟩⟩

/-- C10: for any state, a stripped TEMPO line with exactly three
whitespace-separated tokens whose second token parses as a float makes the
parser assign `project.tempo` from that token and then abort with an
`IndexError` (reading the missing fourth token), the tempo assignment not
being rolled back: the raise-time state carries the new tempo. -/
theorem tempo_three_token_mutation (st : PState) (line t0 t1 t2 : String) (v : ℚ)
    (hstart : pyStartsWith line "TEMPO" = true)
    (hsplit : splitWs line = [t0, t1, t2])
    (hv : parseFloat t1 = some v) :
    processTrimmed st line =
      .error (.indexError, { st with project := { st.project with tempo := v } }) := by
  have hne : ¬ line = "" := by
    intro he; rw [he] at hstart; exact absurd hstart (by decide)
  unfold processTrimmed
  rw [if_neg hne, if_pos hstart]
  unfold parse_tempo
  rw [hsplit]
  simp [hv]

theorem tempo_three_token_mutation_witness :
    pyStartsWith "TEMPO 120 4" "TEMPO" = true ∧
    splitWs "TEMPO 120 4" = ["TEMPO", "120", "4"] ∧
    parseFloat "120" = some 120 ∧
    processTrimmed (initState "p.rpp") "TEMPO 120 4" =
      .error (.indexError,
        { initState "p.rpp" with
            project := { (initState "p.rpp").project with tempo := 120 } }) :=
  ⟨by decide, by decide, by decide,
   tempo_three_token_mutation (initState "p.rpp") "TEMPO 120 4" "TEMPO" "120" "4" 120
     (by decide) (by decide) (by decide)⟩

/-- C9 counterexample: the parse of a document with a track and no TEMPO
directive completes without raising, yet the resulting project's tempo is
0, not strictly positive — refuting the claim that every completed parse
has tempo > 0. -/
theorem tempo_positive_counterexample :
    isOkResult (parseRPP "proj.rpp" ["<TRACK", ">"]) = true ∧
    ¬ (0 < (stateOf (parseRPP "proj.rpp" ["<TRACK", ">"])).project.tempo) := by
  constructor
  · decide
  · decide

/-- C9 amended: a completed parse is not guaranteed a positive tempo; the
parser only ever changes `tempo` on TEMPO-prefixed lines, so any document
without such a line that parses to completion yields the initial tempo 0. -/
theorem parse_without_tempo_directive_zero (path : String) (lines : List String) (st' : PState)
    (h : ∀ l ∈ lines, pyStartsWith (pyStrip l) "TEMPO" = false)
    (hok : parseRPP path lines = .ok st') :
    st'.project.tempo = 0 := by
  have hz := parseLines_tempo_eq lines (initState path) h
  rw [parseRPP] at hok
  rw [hok] at hz
  simpa [stateOf, initState] using hz

theorem parse_without_tempo_directive_zero_witness :
    (∀ l ∈ ["<TRACK", ">"], pyStartsWith (pyStrip l) "TEMPO" = false) ∧
    (stateOf (parseRPP "proj2.rpp" ["<TRACK", ">"])).project.tempo = 0 := by
  have hok : parseRPP "proj2.rpp" ["<TRACK", ">"] =
      .ok { initState "proj2.rpp" with
              project := { (initState "proj2.rpp").project with
                             tracks := [create_track_from_dict create_empty_track] } } := by
    decide
  refine ⟨by decide, ?_⟩
  rw [hok]
  exact parse_without_tempo_directive_zero "proj2.rpp" ["<TRACK", ">"] _ (by decide) hok

/-- C1: a line consisting solely of ">" closes exactly one open context,
resolved innermost-to-outermost: (1) an open effect entry inside an open
chain is finalized (truncation applied) and appended to the chain in
progress; (2) else an open chain is closed and its entry list attached to
the current track (the top of the stack) when one exists; (3) else an open
source sub-block inside an item is closed, the item untouched; (4) else an
open item is finalized and appended to the current track's item list;
(5) else with a non-empty track stack the top track is popped, finalized
and appended to the project's track list. -/
theorem close_token_priority (st : PState) :
    (∀ fx : FXDict, st.in_fx_chain = true → st.current_fx = some fx →
      processLine st ">" = .ok { st with
        current_fx_chain := st.current_fx_chain ++ [create_fx fx],
        current_fx := none }) ∧
    (st.in_fx_chain = true → st.current_fx = none →
      processLine st ">" = .ok { st with
        in_fx_chain := false,
        track_stack :=
          st.track_stack.modifyHead (fun t => { t with fx_chain := st.current_fx_chain }),
        current_fx_chain := [] }) ∧
    (st.in_fx_chain = false → st.in_item_block = true → st.in_source_block = true →
      processLine st ">" = .ok { st with in_source_block := false }) ∧
    (∀ it : ItemDict, st.in_fx_chain = false → st.in_item_block = true →
      st.in_source_block = false → st.current_item = some it →
      processLine st ">" = .ok { st with
        track_stack :=
          st.track_stack.modifyHead
            (fun t => { t with items := t.items ++ [create_audio_item it] }),
        current_item := none,
        in_item_block := false }) ∧
    (∀ (t : TrackDict) (rest : List TrackDict), st.in_fx_chain = false →
      st.in_item_block = false → st.track_stack = t :: rest →
      processLine st ">" = .ok { st with
        track_stack := rest,
        project :=
          { st.project with tracks := st.project.tracks ++ [create_track_from_dict t] } }) := by
  have hc : processLine st ">" = closeStep st := processTrimmed_gt st
  refine ⟨?_, ?_, ?_, ?_, ?_⟩
  · intro fx h1 h2
    rw [hc]; unfold closeStep
    rw [if_pos h1, h2]
  · intro h1 h2
    rw [hc]; unfold closeStep
    rw [if_pos h1, h2]
  · intro h1 h2 h3
    rw [hc]; unfold closeStep
    rw [if_neg (by simp [h1]), if_pos h2, if_pos h3]
  · intro it h1 h2 h3 h4
    rw [hc]; unfold closeStep
    rw [if_neg (by simp [h1]), if_pos h2, if_neg (by simp [h3]), h4]
  · intro t rest h1 h2 h3
    rw [hc]; unfold closeStep
    rw [if_neg (by simp [h1]), if_neg (by simp [h2]), h3]
    rfl

theorem close_token_priority_witness :
    processLine fxOpenState ">" = .ok { fxOpenState with
      current_fx_chain := fxOpenState.current_fx_chain ++
        [create_fx { name := "X", encoded_data := ["ab"], bypassed := false }],
      current_fx := none } ∧
    processLine chainOpenState ">" = .ok { chainOpenState with
      in_fx_chain := false,
      track_stack :=
        chainOpenState.track_stack.modifyHead
          (fun t => { t with fx_chain := chainOpenState.current_fx_chain }),
      current_fx_chain := [] } ∧
    processLine sourceOpenState ">" = .ok { sourceOpenState with in_source_block := false } ∧
    processLine itemOpenState ">" = .ok { itemOpenState with
      track_stack :=
        itemOpenState.track_stack.modifyHead
          (fun t => { t with items := t.items ++
            [create_audio_item { position := 1, length := 2, audio_filepath := "/a.wav" }] }),
      current_item := none,
      in_item_block := false } ∧
    processLine trackOpenState ">" = .ok { trackOpenState with
      track_stack := [],
      project := { trackOpenState.project with
                     tracks := trackOpenState.project.tracks ++
                       [create_track_from_dict create_empty_track] } } :=
  ⟨(close_token_priority fxOpenState).1 _ rfl rfl,
   (close_token_priority chainOpenState).2.1 rfl rfl,
   (close_token_priority sourceOpenState).2.2.1 rfl rfl rfl,
   (close_token_priority itemOpenState).2.2.2.1 _ rfl rfl rfl rfl,
   (close_token_priority trackOpenState).2.2.2.2 _ _ rfl rfl rfl⟩

/-- C4 counterexample: the parse of a document whose track has a bare NAME
directive aborts with an `IndexError` — an error-raising path that is not
the malformed-numeric-field `ValueError`, refuting the claim that the
malformed-numeric error is the parser's only error-raising path. -/
theorem parser_error_kinds_counterexample :
    parseRPP "p.rpp" ["<TRACK", "NAME"] =
      .error (.indexError, { initState "p.rpp" with track_stack := [create_empty_track] }) := by
  decide

/-- C4 amended: a malformed numeric field in a directive (here TEMPO) is a
fatal `ValueError` aborting the parse; unknown directives are silently
ignored; but the malformed-numeric error is not the only error-raising
path — missing-field subscripts (for example a BYPASS directive with no
argument inside an open effect entry) raise `IndexError` as well. -/
theorem parser_error_paths :
    (∀ (st : PState) (line t0 t1 t2 t3 : String),
      pyStartsWith line "TEMPO" = true →
      splitWs line = [t0, t1, t2, t3] →
      parseFloat t1 = none →
      processTrimmed st line = .error (.valueError t1, st)) ∧
    (∀ (st : PState) (line : String),
      ¬ line = "" →
      pyStartsWith line "TEMPO" = false →
      pyStartsWith line "<TRACK" = false →
      pyStartsWith line "NAME" = false →
      pyStartsWith line "<FXCHAIN" = false →
      pyStartsWith line "<VST" = false →
      pyStartsWith line "BYPASS" = false →
      pyIsAlnum line = false →
      pyStartsWith line "VOLPAN" = false →
      pyStartsWith line "MUTESOLO" = false →
      pyStartsWith line "<ITEM" = false →
      pyStartsWith line "POSITION" = false →
      pyStartsWith line "LENGTH" = false →
      pyStartsWith line "<SOURCE WAVE" = false →
      pyStartsWith line "FILE" = false →
      ¬ line = ">" →
      processTrimmed st line = .ok st) ∧
    (parseRPP "p.rpp"
        ["<FXCHAIN", "<VST " ++ (⟨[quoteChar]⟩ : String) ++ "X" ++ (⟨[quoteChar]⟩ : String) ++ " y",
         "BYPASS"] =
      .error (.indexError,
        { initState "p.rpp" with
            in_fx_chain := true,
            current_fx := some { name := "X", encoded_data := [], bypassed := false } })) := by
  refine ⟨?_, ?_, ?_⟩
  · intro st line t0 t1 t2 t3 hstart hsplit hv
    have hne : ¬ line = "" := by
      intro he; rw [he] at hstart; exact absurd hstart (by decide)
    unfold processTrimmed
    rw [if_neg hne, if_pos hstart]
    unfold parse_tempo
    rw [hsplit]
    simp [hv]
  · intro st line h0 h1 h2 h3 h4 h5 h6 h7 h8 h9 h10 h11 h12 h13 h14 h15
    have hd : decide (line = ">") = false := decide_eq_false h15
    unfold processTrimmed
    rw [if_neg h0]
    rw [if_neg (by simp [h1])]
    rw [if_neg (by simp [h2])]
    rw [if_neg (by simp [h3])]
    rw [if_neg (by simp [h4])]
    rw [if_neg (by simp [h5])]
    rw [if_neg (by simp [h6])]
    rw [if_neg (by simp [h7])]
    rw [if_neg (by simp [hd])]
    rw [if_neg (by simp [h8])]
    rw [if_neg (by simp [h9])]
    rw [if_neg (by simp [h10])]
    rw [if_neg (by simp [h11])]
    rw [if_neg (by simp [h12])]
    rw [if_neg (by simp [h13])]
    rw [if_neg (by simp [h14])]
    rw [if_neg (by simp [hd])]
    rw [if_neg (by simp [hd])]
  · decide

theorem parser_error_paths_witness :
    processTrimmed (initState "p.rpp") "TEMPO abc 4 4" =
      .error (.valueError "abc", initState "p.rpp") ∧
    processTrimmed (initState "p.rpp") "XYZZY 1 2" = .ok (initState "p.rpp") :=
  ⟨parser_error_paths.1 (initState "p.rpp") "TEMPO abc 4 4" "TEMPO" "abc" "4" "4"
      (by decide) (by decide) (by decide),
   parser_error_paths.2.1 (initState "p.rpp") "XYZZY 1 2"
      (by decide) (by decide) (by decide) (by decide) (by decide) (by decide) (by decide)
      (by decide) (by decide) (by decide) (by decide) (by decide) (by decide) (by decide)
      (by decide) (by decide)⟩

/-- C2: `analyze` is a total function of the decode outcome (no exception
escapes); each failure outcome yields the all-zero result with empty
warnings and the corresponding human-readable error — exactly
"File not found: path" for an absent path — while a successful decode
yields a result with no error. -/
theorem analyze_error_contract (path : String) (outcome : DecodeOutcome)
    (meter : Option LoudnessMeter) :
    (outcome = .absent →
      analyze path outcome meter = zeroResult path ("File not found: " ++ path)) ∧
    (∀ msg, outcome = .libsndfileError msg →
      analyze path outcome meter =
        zeroResult path ("Corrupted or invalid audio file: " ++ msg)) ∧
    (∀ msg, outcome = .otherExc msg →
      analyze path outcome meter = zeroResult path ("Analysis failed: " ++ msg)) ∧
    (∀ M sr, outcome = .ok M sr → (analyze path outcome meter).error = none) ∧
    (∀ err, (zeroResult path err).warnings = [] ∧ (zeroResult path err).error = some err ∧
      (zeroResult path err).sample_rate = 0 ∧ (zeroResult path err).duration_seconds = 0 ∧
      (zeroResult path err).channels = 0 ∧
      (zeroResult path err).level =
        { peak_db := ((0 : ℝ) : DB), rms_db := ((0 : ℝ) : DB),
          clipping_detected := false, clipped_samples_count := 0 } ∧
      (zeroResult path err).frequency =
        { spectral_centroid_hz := 0, low_freq_energy_db := ((0 : ℝ) : DB),
          mid_freq_energy_db := ((0 : ℝ) : DB), high_freq_energy_db := ((0 : ℝ) : DB) } ∧
      (zeroResult path err).stereo =
        { is_stereo := false, stereo_width := 0, phase_coherence := 0,
          mono_compatible := false } ∧
      (zeroResult path err).dynamics =
        { lufs_integrated := 0, true_peak_db := ((0 : ℝ) : DB),
          crest_factor_db := ((0 : ℝ) : DB) }) := by
  refine ⟨?_, ?_, ?_, ?_, ?_⟩
  · rintro rfl; rfl
  · rintro msg rfl; rfl
  · rintro msg rfl; rfl
  · rintro M sr rfl; rfl
  · intro err
    exact ⟨rfl, rfl, rfl, rfl, rfl, rfl, rfl, rfl, rfl⟩

theorem analyze_error_contract_witness :
    analyze "take1.wav" .absent none = zeroResult "take1.wav" ("File not found: " ++ "take1.wav") :=
  (analyze_error_contract "take1.wav" .absent none).1 rfl

/-- C5: on a matrix with at least one frame (and at least one decoded
channel), level analysis works on the per-frame channel mean: peak_db is
20·log10 of the largest absolute downmixed sample when positive and -inf
otherwise, rms_db the same conversion of the root mean square (-inf when
the RMS is 0), the clipped count is the number of downmixed samples of
absolute value at least 0.9999, and clipping_detected holds iff that count
is positive. -/
theorem level_analysis_downmix (M : SampleMatrix) (_hr : M.rows ≠ [])
    (hc : 1 ≤ M.nchannels) :
    (analyze_levels M).peak_db =
      (if 0 < peakLinear (M.rows.map listMean)
        then ((20 * Real.logb 10 (peakLinear (M.rows.map listMean)) : ℝ) : DB) else ⊥) ∧
    (analyze_levels M).rms_db =
      (if rmsLinear (M.rows.map listMean) = 0 then ⊥
        else ((20 * Real.logb 10 (rmsLinear (M.rows.map listMean)) : ℝ) : DB)) ∧
    (analyze_levels M).clipped_samples_count =
      ((M.rows.map listMean).filter (fun x => decide ((0.9999 : ℝ) ≤ |x|))).length ∧
    ((analyze_levels M).clipping_detected = true ↔
      0 < ((M.rows.map listMean).filter (fun x => decide ((0.9999 : ℝ) ≤ |x|))).length) := by
  have hm : monoOf M = M.rows.map listMean := monoOf_eq_downmix M hc
  refine ⟨?_, ?_, ?_, ?_⟩
  · show (if 0 < peakLinear (monoOf M) then linear_to_db (peakLinear (monoOf M)) else ⊥) = _
    rw [hm]
    by_cases h : 0 < peakLinear (M.rows.map listMean)
    · rw [if_pos h, if_pos h]
      unfold linear_to_db
      rw [if_neg (not_le.mpr h)]
    · rw [if_neg h, if_neg h]
  · show (if 0 < rmsLinear (monoOf M) then linear_to_db (rmsLinear (monoOf M)) else ⊥) = _
    rw [hm]
    rcases lt_or_eq_of_le (Real.sqrt_nonneg (listMean ((M.rows.map listMean).map (fun x => x ^ 2)))) with h | h
    · have h' : 0 < rmsLinear (M.rows.map listMean) := h
      rw [if_pos h', if_neg (ne_of_gt h')]
      unfold linear_to_db
      rw [if_neg (not_le.mpr h')]
    · have h' : rmsLinear (M.rows.map listMean) = 0 := h.symm
      rw [if_neg (by rw [h']; exact lt_irrefl 0), if_pos h']
  · show countClipped (monoOf M) = _
    rw [hm, countClipped_eq_filter]
  · show decide (0 < countClipped (monoOf M)) = true ↔ _
    rw [decide_eq_true_iff, hm, countClipped_eq_filter]

theorem level_analysis_downmix_witness :
    (analyze_levels MstereoW).clipped_samples_count =
      ((MstereoW.rows.map listMean).filter (fun x => decide ((0.9999 : ℝ) ≤ |x|))).length :=
  (level_analysis_downmix MstereoW (by simp [MstereoW]) (by norm_num [MstereoW])).2.2.1

/-- C6: stereo analysis returns the fixed mono defaults whenever the
channel count differs from 2; with exactly two channels it reports
is_stereo, phase coherence equal to the Pearson correlation of the two
channels (1 on an empty signal), stereo width 1 minus the absolute
coherence, and mono compatibility exactly when the coherence exceeds
0.5. -/
theorem stereo_analysis_spec (M : SampleMatrix) :
    (M.nchannels ≠ 2 →
      analyze_stereo M =
        { is_stereo := false, stereo_width := 0, phase_coherence := 1,
          mono_compatible := true }) ∧
    (M.nchannels = 2 →
      (analyze_stereo M).is_stereo = true ∧
      (analyze_stereo M).phase_coherence =
        (if M.rows = [] then 1 else pearsonCorr (colAt M 0) (colAt M 1)) ∧
      (analyze_stereo M).stereo_width = 1 - |(analyze_stereo M).phase_coherence| ∧
      ((analyze_stereo M).mono_compatible = true ↔
        (0.5 : ℝ) < (analyze_stereo M).phase_coherence)) := by
  constructor
  · intro h
    unfold analyze_stereo
    rw [if_neg h]
  · intro h
    have hcond : (0 < (colAt M 0).length ∧ 0 < (colAt M 1).length) ↔ ¬ M.rows = [] := by
      unfold colAt
      simp [List.length_pos]
    refine ⟨?_, ?_, ?_, ?_⟩
    · unfold analyze_stereo
      rw [if_pos h]
    · show (analyze_stereo M).phase_coherence = _
      unfold analyze_stereo
      rw [if_pos h]
      by_cases hrows : M.rows = []
      · rw [if_pos hrows]
        show (if 0 < (colAt M 0).length ∧ 0 < (colAt M 1).length
              then pearsonCorr (colAt M 0) (colAt M 1) else 1) = 1
        rw [if_neg (fun hh => (hcond.mp hh) hrows)]
      · rw [if_neg hrows]
        show (if 0 < (colAt M 0).length ∧ 0 < (colAt M 1).length
              then pearsonCorr (colAt M 0) (colAt M 1) else 1) = _
        rw [if_pos (hcond.mpr hrows)]
    · unfold analyze_stereo
      rw [if_pos h]
    · unfold analyze_stereo
      rw [if_pos h]
      exact decide_eq_true_iff

theorem stereo_analysis_spec_witness :
    (analyze_stereo MmonoW =
      { is_stereo := false, stereo_width := 0, phase_coherence := 1,
        mono_compatible := true }) ∧
    (analyze_stereo MstereoW).is_stereo = true :=
  ⟨(stereo_analysis_spec MmonoW).1 (by norm_num [MmonoW]),
   ((stereo_analysis_spec MstereoW).2 (by norm_num [MstereoW])).1⟩

/-- C7: when the loudness-metering dependency is absent or its computation
raises, dynamics analysis falls back to the fixed constant -23.0 LUFS and
completes normally — true peak and crest factor are still computed, with
their usual values independent of the meter — and the analyzer's success
path leaves the result's error field unset regardless of the meter. -/
theorem dynamics_meter_fallback (M : SampleMatrix) (sr : ℕ) :
    ((analyze_dynamics none M sr).lufs_integrated = -23.0) ∧
    (∀ (m : LoudnessMeter) (e : String), m sr M = .error e →
      (analyze_dynamics (some m) M sr).lufs_integrated = -23.0) ∧
    (∀ meter : Option LoudnessMeter,
      (analyze_dynamics meter M sr).true_peak_db =
        (if 0 < peakLinear (monoOf M) then linear_to_db (peakLinear (monoOf M)) else ⊥) ∧
      (analyze_dynamics meter M sr).crest_factor_db =
        (if 0 < rmsLinear (monoOf M)
          then linear_to_db (peakLinear (monoOf M) / rmsLinear (monoOf M))
          else ((0 : ℝ) : DB))) ∧
    (∀ (path : String) (meter : Option LoudnessMeter),
      (analyze path (.ok M sr) meter).error = none) := by
  refine ⟨rfl, ?_, ?_, ?_⟩
  · intro m e he
    show (if 0 < (monoOf M).length
          then (match m sr M with | .ok v => v | .error _ => (-23.0 : ℝ))
          else (-23.0 : ℝ)) = -23.0
    rw [he]
    by_cases h : 0 < (monoOf M).length
    · rw [if_pos h]
    · rw [if_neg h]
  · intro meter
    exact ⟨rfl, rfl⟩
  · intro path meter
    rfl

theorem dynamics_meter_fallback_witness :
    failMeter 44100 MmonoW = .error "boom" ∧
    (analyze_dynamics (some failMeter) MmonoW 44100).lufs_integrated = -23.0 :=
  ⟨rfl, (dynamics_meter_fallback MmonoW 44100).2.1 failMeter "boom" rfl⟩

/-- C3 counterexample: at a quadruple with the clipping flag cleared but a
positive clipped-sample count, the code emits no warnings while the
claim's rule list (rule 2 keyed on count > 0) contains the clipping
warning: the claimed list differs from the produced one. -/
theorem generate_warnings_counterexample :
    rulesToWarnings (claimWarnRules lvlFlagClear freqQuiet stereoDefault dynQuiet) ≠
      generate_warnings lvlFlagClear freqQuiet stereoDefault dynQuiet := by
  have hg : generate_warnings lvlFlagClear freqQuiet stereoDefault dynQuiet = [] := by
    unfold generate_warnings
    rw [if_neg (by simp [lvlFlagClear] : ¬ (((-0.3 : ℝ) : DB) < lvlFlagClear.peak_db))]
    rw [if_neg (by simp [lvlFlagClear] : ¬ lvlFlagClear.clipping_detected = true)]
    rw [if_neg (by simp [freqQuiet] : ¬ (((-6.0 : ℝ) : DB) < freqQuiet.low_freq_energy_db))]
    rw [if_neg (by norm_num [freqQuiet] : ¬ freqQuiet.spectral_centroid_hz < 500)]
    rw [if_neg (by simp [stereoDefault] :
      ¬ (stereoDefault.is_stereo = true ∧ ¬ stereoDefault.mono_compatible = true))]
    rw [if_neg (by simp [stereoDefault] :
      ¬ (stereoDefault.is_stereo = true ∧ stereoDefault.stereo_width < 0.1))]
    rw [if_neg (by norm_num [dynQuiet] : ¬ ((-8.0 : ℝ) < dynQuiet.lufs_integrated))]
    rw [if_neg (show ¬ dynQuiet.crest_factor_db < ((6.0 : ℝ) : DB) by
      show ¬ ((7 : ℝ) : DB) < ((6.0 : ℝ) : DB)
      rw [not_lt]
      exact_mod_cast (by norm_num : (6.0 : ℝ) ≤ 7))]
    rfl
  have hclip : (0 < lvlFlagClear.clipped_samples_count) := by simp [lvlFlagClear]
  have hc : rulesToWarnings (claimWarnRules lvlFlagClear freqQuiet stereoDefault dynQuiet) =
      [warnClip lvlFlagClear] := by
    unfold claimWarnRules
    simp only [rulesToWarnings]
    rw [if_neg (by simp [lvlFlagClear] : ¬ (((-0.3 : ℝ) : DB) < lvlFlagClear.peak_db))]
    rw [if_pos hclip]
    rw [if_neg (by simp [freqQuiet] : ¬ (((-6.0 : ℝ) : DB) < freqQuiet.low_freq_energy_db))]
    rw [if_neg (by norm_num [freqQuiet] : ¬ freqQuiet.spectral_centroid_hz < 500)]
    rw [if_neg (by simp [stereoDefault] :
      ¬ (stereoDefault.is_stereo = true ∧ ¬ stereoDefault.mono_compatible = true))]
    rw [if_neg (by simp [stereoDefault] :
      ¬ (stereoDefault.is_stereo = true ∧ stereoDefault.stereo_width < 0.1))]
    rw [if_neg (by norm_num [dynQuiet] : ¬ ((-8.0 : ℝ) < dynQuiet.lufs_integrated))]
    rw [if_neg (show ¬ dynQuiet.crest_factor_db < ((6.0 : ℝ) : DB) by
      show ¬ ((7 : ℝ) : DB) < ((6.0 : ℝ) : DB)
      rw [not_lt]
      exact_mod_cast (by norm_num : (6.0 : ℝ) ≤ 7))]
    rfl
  rw [hg, hc]
  simp

/-- C3 amended: for every quadruple of sub-results the warning list is
exactly the in-order filtration of the eight fixed rules, where rule 2's
condition is the clipping_detected flag (not the clipped-sample count,
though the two coincide on analyzer-produced results); no other warning is
ever emitted. -/
theorem generate_warnings_rule_list (l : LevelAnalysis) (f : FrequencyAnalysis)
    (s : StereoAnalysis) (d : DynamicsAnalysis) :
    generate_warnings l f s d = rulesToWarnings (warnRules l f s d) := by
  unfold generate_warnings warnRules
  simp only [rulesToWarnings]
  rw [List.append_nil]
  split_ifs <;> rfl

end Reaper
